import Mathlib

/-!
Verification of the osmcha-django moderation backend against its
natural-language specification.

The repository sources embedded here are:
* `osmchadjango/feature/views.py` (feature views, `create_feature`,
  `SetHarmfulFeature`, `SetGoodFeature`, `whitelist_user`);
* `osmchadjango/changeset/migrations/0051_auto_20180425_1311.py`
  (`filtered_json`, `migrate_features`);
* `osmchadjango/changeset/tests/test_changeset_views.py` and
  `osmchadjango/changeset/urls.py`.

The changeset views, serializers and filters themselves are not part of the
source tree; where a claim depends on them, the missing operation is modelled
from the specification (each such definition carries a doc comment starting
with `Modelled from the spec:`).
-/

namespace Osmcha

/-- The user attached to a request: database id, the OSM uids of the user's
social-auth accounts (`[i.uid for i in request.user.social_auth.all()]` in the
source) and the staff flag. -/
structure RequestUser where
  id : Nat
  socialUids : List String
  is_staff : Bool
  deriving Repr, DecidableEq

/-- The review fields shared by `Changeset` and `Feature` rows, together with
the owner's OSM uid. `harmful` is the tri-state field (`None`/`True`/`False`),
`check_user` holds the reviewing user's id and `check_date` a timestamp. -/
structure Checkable where
  uid : String
  checked : Bool
  harmful : Option Bool
  check_user : Option Nat
  check_date : Option Nat
  deriving Repr, DecidableEq

/-- An unchecked row as the model factories create it: `checked=False`,
`harmful`, `check_user` and `check_date` all `None`. -/
def Checkable.unchecked (uid : String) : Checkable :=
  { uid := uid, checked := false, harmful := none,
    check_user := none, check_date := none }

/-- The spec invariant: `checked`/`harmful`/`check_user`/`check_date` are set
together or all cleared together. When `checked` is true both `check_user` and
`check_date` are present; when it is false all three other fields are `None`. -/
def checkConsistent (c : Checkable) : Prop :=
  (c.checked = true → c.check_user ≠ none ∧ c.check_date ≠ none) ∧
  (c.checked = false →
    c.harmful = none ∧ c.check_user = none ∧ c.check_date = none)

instance (c : Checkable) : Decidable (checkConsistent c) := by
  unfold checkConsistent; infer_instance

/-- Modelled from the spec: `osmchadjango/changeset/views.py` (the
`set_harmful_changeset` and `set_good_changeset` API views) is not under the
source tree, only its tests and URL routes are.  Per the spec's
"permission/state-machine rules around checking a changeset (harmful/good/
unchecked) including throttling and ownership constraints": a user may not
check their own changeset (403), an already checked changeset cannot be checked
again (403), and a successful check sets `checked`, `harmful`, `check_user`
and `check_date` in the same step and answers 200. -/
def setCheckChangeset (harmfulFlag : Bool) (u : RequestUser) (now : Nat)
    (c : Checkable) : Checkable × Nat :=
  if u.socialUids.contains c.uid then (c, 403)
  else if c.checked then (c, 403)
  else
    ({ c with
        checked := true,
        harmful := some harmfulFlag,
        check_user := some u.id,
        check_date := some now }, 200)

/-- Modelled from the spec: the `uncheck_changeset` view of
`osmchadjango/changeset/views.py` is not under the source tree.  Per the spec's
invariant ("set together or all cleared together") and state-machine rules: an
unchecked changeset cannot be unchecked (403), only the checking user or a
staff user may uncheck (403 otherwise), and a successful uncheck clears
`checked`, `harmful`, `check_user` and `check_date` in the same step. -/
def uncheckChangeset (u : RequestUser) (c : Checkable) : Checkable × Nat :=
  if c.checked = false then (c, 403)
  else if c.check_user = some u.id ∨ u.is_staff then
    ({ c with
        checked := false,
        harmful := none,
        check_user := none,
        check_date := none }, 200)
  else (c, 403)

/-- Outcome of a classic Django view in `feature/views.py`: a rendered
template, a redirect, or an uncaught Python exception escaping the view. -/
inductive ViewResult
  | render (template : String)
  | redirect (urlName : String)
  | exn (nameErrorName : String)
  deriving Repr, DecidableEq

/-- The module-level names bound by the import statements of
`osmchadjango/feature/views.py` (lines 1-33 of the source) together with the
names the module itself defines.  Python resolves a global name against this
set; a name outside it raises `NameError`. -/
def featureViewsGlobals : List String :=
  ["json", "datetime", "View", "ListView", "SingleObjectMixin",
   "csrf_exempt", "render", "JsonResponse", "reverse", "timezone",
   "ugettext", "_", "IntegrityError", "GEOSGeometry", "Polygon",
   "ValidationError", "GDALException", "django_filters", "ListAPIView",
   "RetrieveAPIView", "get_object_or_404", "api_view", "parser_classes",
   "permission_classes", "JSONParser", "MultiPartParser", "FormParser",
   "IsAuthenticated", "IsAdminUser", "Response", "status", "InBBoxFilter",
   "GeoJsonPagination", "changeset_models", "Feature", "FeatureSerializer",
   "FeatureFilter", "StandardResultsSetPagination", "FeatureListAPIView",
   "FeatureListView", "FeatureDetailAPIView", "get_geojson",
   "create_feature", "SetHarmfulFeature", "whitelist_user", "SetGoodFeature"]

/-- Embedding of `SetHarmfulFeature.post` (feature/views.py lines 277-292): when the
changeset owner's uid is not among the requesting user's social-auth uids, the
view sets `checked=True`, `harmful=True`, `check_user` and `check_date`, saves
the feature, and then evaluates the global name `HttpResponseRedirect`;
otherwise it renders the not-allowed page and leaves the feature unchanged.
The first component of the result is the persisted feature state. -/
def setHarmfulFeaturePost (u : RequestUser) (now : Nat) (obj : Checkable) :
    Checkable × ViewResult :=
  if ¬ u.socialUids.contains obj.uid then
    ({ obj with
        checked := true,
        harmful := some true,
        check_user := some u.id,
        check_date := some now },
     if featureViewsGlobals.contains "HttpResponseRedirect" then
       ViewResult.redirect "feature:detail"
     else ViewResult.exn "HttpResponseRedirect")
  else (obj, ViewResult.render "feature/not_allowed.html")

/-- Embedding of `SetGoodFeature.post` (feature/views.py lines 332-344): same shape as
`SetHarmfulFeature.post` with `harmful=False`. -/
def setGoodFeaturePost (u : RequestUser) (now : Nat) (obj : Checkable) :
    Checkable × ViewResult :=
  if ¬ u.socialUids.contains obj.uid then
    ({ obj with
        checked := true,
        harmful := some false,
        check_user := some u.id,
        check_date := some now },
     if featureViewsGlobals.contains "HttpResponseRedirect" then
       ViewResult.redirect "feature:detail"
     else ViewResult.exn "HttpResponseRedirect")
  else (obj, ViewResult.render "feature/not_allowed.html")

/-- One operation of the checking state machine: the two changeset check API
operations, the uncheck API operation, and the two feature-view post
operations. -/
inductive CheckOp
  | setHarmful (u : RequestUser) (now : Nat)
  | setGood (u : RequestUser) (now : Nat)
  | uncheck (u : RequestUser)
  | featureSetHarmful (u : RequestUser) (now : Nat)
  | featureSetGood (u : RequestUser) (now : Nat)

/-- The state reached by one operation (dropping the HTTP status). -/
def CheckOp.apply (op : CheckOp) (c : Checkable) : Checkable :=
  match op with
  | CheckOp.setHarmful u now => (setCheckChangeset true u now c).1
  | CheckOp.setGood u now => (setCheckChangeset false u now c).1
  | CheckOp.uncheck u => (uncheckChangeset u c).1
  | CheckOp.featureSetHarmful u now => (setHarmfulFeaturePost u now c).1
  | CheckOp.featureSetGood u now => (setGoodFeaturePost u now c).1

/-- The state after a sequence of operations. -/
def runOps (ops : List CheckOp) (c : Checkable) : Checkable :=
  ops.foldl (fun s op => op.apply s) c

/-- A GeoJSON geometry value as `GEOSGeometry(json.dumps(...))` sees it:
either it parses, or the call raises (`GDALException`/`ValueError`/
`TypeError`) with an error text. -/
inductive GeoValue
  | valid (txt : String)
  | invalid (err : String)
  deriving Repr, DecidableEq

/-- One entry of the `suspicions` array of a payload's properties. -/
structure Suspicion where
  reason : String
  deriving Repr, DecidableEq

/-- The `properties` object of the ingested GeoJSON feature.  An `Option`
field is `none` when the corresponding key is absent: `osm:changeset`,
`osm:timestamp` and `osm:uid` are read with `.get` (no exception),
`suspicions` is read with `.get` but popped with no default, and `osm:id`,
`osm:type`, `osm:version` are read with bracket access (`KeyError` when
absent).  `oldVersion`, when present, carries its inner `geometry`. -/
structure FeatureProperties where
  osmChangeset : Option Int
  suspicionsKey : Option (List Suspicion)
  osmTimestamp : Option Int
  osmUid : Option Int
  osmId : Option Int
  osmType : Option String
  osmVersion : Option Int
  oldVersion : Option GeoValue
  deriving Repr, DecidableEq

/-- The request payload of `create_feature`: `request.data` with its
`properties` key (absent when `none`), its `geometry` key and the optional
`comparator_version`. -/
structure FeaturePayload where
  properties : Option FeatureProperties
  geometry : Option GeoValue
  comparatorVersion : Option Int
  deriving Repr, DecidableEq

/-- Python truthiness of the value read for `osm:changeset`: `None` and `0`
are falsy. -/
def pyTruthyInt : Option Int → Bool
  | none => false
  | some n => n != 0

/-- A `Changeset` row as `create_feature` touches it: id, the ingestion
defaults (`date`, `uid`, `is_suspect`) and the names of its associated
`SuspicionReasons`. -/
structure ChangesetRow where
  id : Int
  date : Option Int
  uid : Option Int
  is_suspect : Bool
  reasonNames : List String
  deriving Repr, DecidableEq

/-- A `Feature` row as `create_feature` creates it. -/
structure FeatureRow where
  osm_id : Int
  changesetId : Int
  osm_type : String
  url : String
  osm_version : Int
  comparator_version : Option Int
  hasGeometry : Bool
  hasOldGeometry : Bool
  reasonNames : List String
  deriving Repr, DecidableEq

/-- The database slices `create_feature` reads and writes: the
`SuspicionReasons` table (rows identified by name), the `Changeset` table and
the `Feature` table. -/
structure DB where
  reasonNames : List String
  changesets : List ChangesetRow
  features : List FeatureRow
  deriving Repr, DecidableEq

/-- Embedding of `SuspicionReasons.objects.get_or_create(name=reason_text)`: create the
row unless a row with that name exists. -/
def getOrCreateReason (db : DB) (name : String) : DB :=
  if db.reasonNames.contains name then db
  else { db with reasonNames := db.reasonNames ++ [name] }

/-- The `for reason_text in reasons_texts` loop of `create_feature`. -/
def ensureReasons (names : List String) (db : DB) : DB :=
  names.foldl getOrCreateReason db

/-- Embedding of `Changeset.objects.get_or_create(id=..., defaults=...)`. -/
def getOrCreateChangeset (db : DB) (cid : Int) (defaults : ChangesetRow) :
    DB × ChangesetRow :=
  match db.changesets.find? (fun c => c.id == cid) with
  | some row => (db, row)
  | none => ({ db with changesets := db.changesets ++ [defaults] }, defaults)

/-- Saving a modification of the changeset row with the given id. -/
def updateChangesetRow (db : DB) (cid : Int) (f : ChangesetRow → ChangesetRow) :
    DB :=
  { db with changesets := db.changesets.map (fun c => if c.id == cid then f c else c) }

/-- Adding a set of reasons to a many-to-many relation, keeping one row per
name. -/
def addNamesOnce (old new : List String) : List String :=
  old ++ new.filter (fun n => !old.contains n)

/-- Embedding of `Feature.objects.get_or_create(osm_id=..., changeset=..., defaults=...)`. -/
def getOrCreateFeature (db : DB) (oid cid : Int) (defaults : FeatureRow) :
    DB × FeatureRow :=
  match db.features.find? (fun f => f.osm_id == oid && f.changesetId == cid) with
  | some row => (db, row)
  | none => ({ db with features := db.features ++ [defaults] }, defaults)

/-- Saving a modification of the feature row with the given key. -/
def updateFeatureRow (db : DB) (oid cid : Int) (f : FeatureRow → FeatureRow) :
    DB :=
  { db with
      features := db.features.map
        (fun r => if r.osm_id == oid && r.changesetId == cid then f r else r) }

/-- Lines 186-205 of `create_feature`: get-or-create the changeset, mark it
suspect when it is not, and add the suspicion reasons to it unless
`IntegrityError` is raised (the race flag), in which case the error is only
printed. -/
def changesetPhase (db : DB) (changeset_id : Int) (csDefaults : ChangesetRow)
    (reasons_texts : List String) (race : Bool) : DB :=
  let dbAndRow := getOrCreateChangeset db changeset_id csDefaults
  let db2 :=
    if (dbAndRow.2).is_suspect = false then
      updateChangesetRow dbAndRow.1 changeset_id
        (fun c => { c with is_suspect := true })
    else dbAndRow.1
  if race then db2
  else
    updateChangesetRow db2 changeset_id
      (fun c => { c with reasonNames := addNamesOnce c.reasonNames reasons_texts })

/-- Lines 237-249 of `create_feature`: get-or-create the feature row and add
the suspicion reasons to it unless `IntegrityError` is raised (the race
flag), in which case the error is only printed. -/
def featurePhase (db : DB) (oid cid : Int) (fDefaults : FeatureRow)
    (reasons_texts : List String) (race : Bool) : DB :=
  let dbAndFeat := getOrCreateFeature db oid cid fDefaults
  if race then dbAndFeat.1
  else
    updateFeatureRow dbAndFeat.1 oid cid
      (fun r => { r with reasonNames := addNamesOnce r.reasonNames reasons_texts })

/-- An uncaught Python exception escaping `create_feature`. -/
inductive PyExc
  | keyError (k : String)
  | typeError
  deriving Repr, DecidableEq

/-- The outcome of the `create_feature` API view: an HTTP response built with
`Response(...)`, or an unhandled exception (server error). -/
inductive ApiResult
  | response (code : Nat) (message : String)
  | error (e : PyExc)
  deriving Repr, DecidableEq

/-- The `create_feature` view (feature/views.py lines 142-254), translated statement by
statement.  `raceChangesetAdd` and `raceFeatureAdd` say whether
`changeset.reasons.add(*reasons)` resp. `suspicious_feature.reasons.add(*reasons)`
raises `IntegrityError` (the concurrent-ingestion race); the view catches the
error and only prints.  The pop of `suspicions` has no default, and the
`defaults` date `datetime.utcfromtimestamp(properties.get('osm:timestamp') / 1000)`
raises `TypeError` when the key is absent (`None / 1000`). -/
def create_feature (feature : FeaturePayload)
    (raceChangesetAdd raceFeatureAdd : Bool) (db : DB) : ApiResult × DB :=
  match feature.properties with
  | none => (ApiResult.response 400 "Expecting a single GeoJSON feature.", db)
  | some properties =>
    if pyTruthyInt properties.osmChangeset = false then
      (ApiResult.response 400 "osm:changeset field is missing.", db)
    else
      let changeset_id := properties.osmChangeset.getD 0
      let reasons_texts :=
        match properties.suspicionsKey with
        | some suspicions =>
            if suspicions.isEmpty then []
            else (suspicions.map Suspicion.reason).eraseDups
        | none => []
      let db1 := ensureReasons reasons_texts db
      match properties.suspicionsKey with
      | none => (ApiResult.error (PyExc.keyError "suspicions"), db1)
      | some _ =>
        match properties.osmTimestamp with
        | none => (ApiResult.error PyExc.typeError, db1)
        | some ts =>
          let csDefaults : ChangesetRow :=
            { id := changeset_id, date := some (ts / 1000),
              uid := properties.osmUid, is_suspect := true, reasonNames := [] }
          let db3 :=
            changesetPhase db1 changeset_id csDefaults reasons_texts
              raceChangesetAdd
          match properties.osmId with
          | none => (ApiResult.error (PyExc.keyError "osm:id"), db3)
          | some oid =>
            match properties.osmType with
            | none => (ApiResult.error (PyExc.keyError "osm:type"), db3)
            | some otype =>
              match properties.osmVersion with
              | none => (ApiResult.error (PyExc.keyError "osm:version"), db3)
              | some oversion =>
                match feature.geometry with
                | none => (ApiResult.error (PyExc.keyError "geometry"), db3)
                | some (GeoValue.invalid err) =>
                    (ApiResult.response 400
                      (err ++ " in geometry field of feature " ++ toString oid),
                     db3)
                | some (GeoValue.valid _) =>
                  let fDefaults : FeatureRow :=
                    { osm_id := oid, changesetId := changeset_id,
                      osm_type := otype,
                      url := otype ++ "-" ++ toString oid,
                      osm_version := oversion,
                      comparator_version := feature.comparatorVersion,
                      hasGeometry := true,
                      hasOldGeometry :=
                        match properties.oldVersion with
                        | some (GeoValue.valid _) => true
                        | _ => false,
                      reasonNames := [] }
                  let db4 :=
                    featurePhase db3 oid changeset_id fDefaults reasons_texts
                      raceFeatureAdd
                  (ApiResult.response 201 "Feature created.", db4)

/-- One entry of a changeset's denormalized `new_features` list: a small dict
with `osm_id`, derived `url`, `version`, `reasons` (suspicion reason ids) and
optional `name` and `note` keys. -/
structure NewFeature where
  osm_id : Int
  url : String
  version : Int
  reasons : List Nat
  name : Option String
  note : Option String
  deriving Repr, DecidableEq

/-- What `filtered_json` of migration 0051 reads from a `Feature` row:
`osm_id`, `osm_type`, `osm_version`, the ids of its reasons, and the
`name` property of its geojson (absent when the `KeyError` branch fires). -/
structure MigrationFeature where
  osm_id : Int
  osm_type : String
  osm_version : Int
  reasonIds : List Nat
  geojsonName : Option String
  deriving Repr, DecidableEq

/-- The migration helper `filtered_json` (0051_auto_20180425_1311.py lines
6-17): build the `new_features` entry of a feature, deriving `url` from
`osm_type` and `osm_id` joined with a hyphen; the `name` key is set only when
the geojson has one. -/
def filtered_json (feature : MigrationFeature) : NewFeature :=
  { osm_id := feature.osm_id,
    url := feature.osm_type ++ "-" ++ toString feature.osm_id,
    version := feature.osm_version,
    reasons := feature.reasonIds,
    name := feature.geojsonName,
    note := none }

/-- Modelled from the spec: the `add_feature_to_changeset` view of
`osmchadjango/changeset/views.py` is not under the source tree.  Per the
spec, `new_features` entries are unique by derived url, merging reason lists
on duplicate ingestion: when an entry with the incoming url exists, the new
reason ids are merged into that entry instead of appending a second one. -/
def addFeatureToNewFeatures (new_features : List NewFeature) (f : NewFeature) :
    List NewFeature :=
  if new_features.any (fun e => e.url == f.url) then
    new_features.map (fun e =>
      if e.url == f.url then
        { e with reasons := e.reasons ++ f.reasons.filter (fun r => !e.reasons.contains r) }
      else e)
  else new_features ++ [f]

/-- Uniqueness of `new_features` entries by their derived url. -/
def urlsUnique (l : List NewFeature) : Prop := (l.map NewFeature.url).Nodup

/-- A `SuspicionReasons` or `Tag` row: id, name and the `is_visible` flag. -/
structure Label where
  id : Nat
  name : String
  is_visible : Bool
  deriving Repr, DecidableEq

/-- Modelled from the spec: the changeset serializers are not under the
source tree.  Per the spec, hidden reasons/tags are restricted to staff: the
reasons/tags field of a changeset list or detail response shows every label
to a staff user and only the visible ones to any other requester. -/
def serializeLabels (is_staff : Bool) (labels : List Label) : List Label :=
  if is_staff then labels else labels.filter Label.is_visible

/-- A changeset as the list endpoint filters it: id and author username. -/
structure ChangesetListItem where
  id : Int
  userName : String
  deriving Repr, DecidableEq

/-- Modelled from the spec: `osmchadjango/changeset/filters.py` is not under
the source tree.  Per the spec, `UserWhitelist` is a per-user list of other
usernames whose changesets should be hidden from review queues: with
`hide_whitelist` enabled an authenticated user's whitelisted authors are
excluded, while an anonymous request has no whitelist and nothing is
excluded.  The first argument is the requesting user's whitelist, `none` for
an unauthenticated request. -/
def hideWhitelistFilter (requestWhitelist : Option (List String)) (hide : Bool)
    (cs : List ChangesetListItem) : List ChangesetListItem :=
  match requestWhitelist with
  | none => cs
  | some wl =>
      if hide then cs.filter (fun c => !wl.contains c.userName) else cs

/-- Modelled from the spec: the throttle class of the changeset check views
is not under the source tree, only its tests are.  Per the spec's
"permission/state-machine rules ... including throttling" and the tests'
documented rate, a non-staff user may check at most 3 changesets each minute,
counted across set_harmful and set_good together, while staff users are
exempt.  The throttle keeps the times of the user's allowed check requests
and refuses a request when 3 of them fell within the last 60 seconds. -/
def throttleAllow (u : RequestUser) (now : Nat) (hist : List Nat) : Bool :=
  u.is_staff || (hist.filter (fun t => now < t + 60)).length < 3

/-- The per-user state of the throttled check endpoints: the changeset table
and the times of this user's previously allowed check requests. -/
structure ReviewState where
  changesets : List Checkable
  hist : List Nat
  deriving Repr, DecidableEq

/-- One set-harmful or set-good request: the index of the target changeset,
which of the two operations it is, and its time. -/
structure CheckRequest where
  target : Nat
  harmfulFlag : Bool
  time : Nat
  deriving Repr, DecidableEq

/-- Modelled from the spec: one throttled check request.  A throttled request
answers 429 and changes nothing; an allowed request is recorded and handled
by the check operation (404 when the changeset does not exist). -/
def checkRequestStep (u : RequestUser) (st : ReviewState) (req : CheckRequest) :
    ReviewState × Nat :=
  if throttleAllow u req.time st.hist = false then (st, 429)
  else
    match st.changesets.get? req.target with
    | none => ({ st with hist := req.time :: st.hist }, 404)
    | some c =>
        let r := setCheckChangeset req.harmfulFlag u req.time c
        ({ changesets := st.changesets.set req.target r.1,
           hist := req.time :: st.hist }, r.2)

/-- A sequence of throttled check requests; returns the final state and the
list of HTTP status codes. -/
def processChecks (u : RequestUser) (st : ReviewState) :
    List CheckRequest → ReviewState × List Nat
  | [] => (st, [])
  | req :: rest =>
      let s := checkRequestStep u st req
      let tail := processChecks u s.1 rest
      (tail.1, s.2 :: tail.2)

/-- A sample well-formed `create_feature` payload: the node 877656232 of
changeset 1234 with one suspicion. -/
def samplePayload : FeaturePayload :=
  { properties := some
      { osmChangeset := some 1234,
        suspicionsKey := some [{ reason := "Deleted place" }],
        osmTimestamp := some 1526644000000,
        osmUid := some 9,
        osmId := some 877656232,
        osmType := some "node",
        osmVersion := some 54,
        oldVersion := none },
    geometry := some (GeoValue.valid "POINT"),
    comparatorVersion := none }

/-- The sample payload with the `suspicions` key absent from `properties`. -/
def samplePayloadNoSuspicions : FeaturePayload :=
  { properties := some
      { osmChangeset := some 1234,
        suspicionsKey := none,
        osmTimestamp := some 1526644000000,
        osmUid := some 9,
        osmId := some 877656232,
        osmType := some "node",
        osmVersion := some 54,
        oldVersion := none },
    geometry := some (GeoValue.valid "POINT"),
    comparatorVersion := none }

/-- The empty database. -/
def emptyDB : DB := { reasonNames := [], changesets := [], features := [] }

/-- A sample `new_features` entry, as in the test suite. -/
def sampleEntry : NewFeature :=
  { osm_id := 87765444, url := "node-87765444", version := 44,
    reasons := [1], name := none, note := none }

/-- The sample entry ingested a second time with a different reason id. -/
def sampleEntryAgain : NewFeature :=
  { osm_id := 87765444, url := "node-87765444", version := 44,
    reasons := [2], name := none, note := none }

/-- A hidden label, as `reason_3` of the test suite. -/
def sampleHiddenLabel : Label :=
  { id := 3, name := "Big edit in my city", is_visible := false }

/-- A sample non-staff reviewer. -/
def sampleReviewer : RequestUser := { id := 1, socialUids := ["123123"], is_staff := false }

/-- Five unchecked changesets of another user, as in the throttling tests. -/
def sampleChangesets : List Checkable :=
  List.replicate 5 (Checkable.unchecked "999999")

/-- Five check requests inside one minute, one per sample changeset. -/
def sampleRequests : List CheckRequest :=
  [{ target := 0, harmfulFlag := true, time := 0 },
   { target := 1, harmfulFlag := true, time := 1 },
   { target := 2, harmfulFlag := false, time := 2 },
   { target := 3, harmfulFlag := true, time := 3 },
   { target := 4, harmfulFlag := false, time := 4 }]

theorem setCheckChangeset_consistent (hf : Bool) (u : RequestUser) (now : Nat)
    (c : Checkable) (h : checkConsistent c) :
    checkConsistent (setCheckChangeset hf u now c).1 := by
  unfold setCheckChangeset
  split
  · exact h
  · split
    · exact h
    · exact ⟨fun _ => ⟨Option.some_ne_none _, Option.some_ne_none _⟩,
        fun hfalse => nomatch hfalse⟩

theorem uncheckChangeset_consistent (u : RequestUser) (c : Checkable)
    (h : checkConsistent c) : checkConsistent (uncheckChangeset u c).1 := by
  unfold uncheckChangeset
  split
  · exact h
  · split
    · exact ⟨fun htrue => (nomatch htrue), fun _ => ⟨rfl, rfl, rfl⟩⟩
    · exact h

theorem setHarmfulFeaturePost_consistent (u : RequestUser) (now : Nat)
    (c : Checkable) (h : checkConsistent c) :
    checkConsistent (setHarmfulFeaturePost u now c).1 := by
  unfold setHarmfulFeaturePost
  split
  · exact ⟨fun _ => ⟨Option.some_ne_none _, Option.some_ne_none _⟩,
      fun hfalse => nomatch hfalse⟩
  · exact h

theorem setGoodFeaturePost_consistent (u : RequestUser) (now : Nat)
    (c : Checkable) (h : checkConsistent c) :
    checkConsistent (setGoodFeaturePost u now c).1 := by
  unfold setGoodFeaturePost
  split
  · exact ⟨fun _ => ⟨Option.some_ne_none _, Option.some_ne_none _⟩,
      fun hfalse => nomatch hfalse⟩
  · exact h

theorem checkOp_apply_consistent (op : CheckOp) (c : Checkable)
    (h : checkConsistent c) : checkConsistent (op.apply c) := by
  cases op with
  | setHarmful u now => exact setCheckChangeset_consistent true u now c h
  | setGood u now => exact setCheckChangeset_consistent false u now c h
  | uncheck u => exact uncheckChangeset_consistent u c h
  | featureSetHarmful u now => exact setHarmfulFeaturePost_consistent u now c h
  | featureSetGood u now => exact setGoodFeaturePost_consistent u now c h

/-- C1: every operation that marks a changeset or feature checked (set-harmful
or set-good, in the API or the feature views) assigns `checked`, `harmful`,
`check_user` and `check_date` in the same step and every uncheck clears all
four in the same step, so every state reachable by a sequence of operations
from a consistent state satisfies the invariant: never `checked` with
`check_user` or `check_date` empty, never unchecked with `harmful`,
`check_user` or `check_date` set. -/
theorem claim_C1_check_fields_consistent (ops : List CheckOp) (c : Checkable)
    (h : checkConsistent c) : checkConsistent (runOps ops c) := by
  induction ops generalizing c with
  | nil => exact h
  | cons op rest ih =>
      exact ih (op.apply c) (checkOp_apply_consistent op c h)

/-- Witness for C1 at a concrete run: set harmful, uncheck, then set good. -/
theorem claim_C1_check_fields_consistent_witness :
    checkConsistent
      (runOps
        [CheckOp.setHarmful ⟨7, ["42"], false⟩ 100,
         CheckOp.uncheck ⟨7, ["42"], false⟩,
         CheckOp.setGood ⟨7, ["42"], false⟩ 200]
        (Checkable.unchecked "33")) :=
  claim_C1_check_fields_consistent _ _ (by decide)

/-- C4: an authenticated non-staff user whose OSM uid equals the changeset
owner's uid cannot mark it harmful or good: the API operations answer 403 and
leave the row unchanged, and the feature views render the not-allowed page and
leave the row unchanged.  When the uid differs and the changeset is unchecked,
the same operations succeed: the API answers 200 and sets `checked`,
`harmful`, `check_user` and `check_date`. -/
theorem claim_C4_owner_check_rejected (u : RequestUser) (now : Nat)
    (c : Checkable) (_hstaff : u.is_staff = false) :
    (u.socialUids.contains c.uid = true →
      (∀ hf, setCheckChangeset hf u now c = (c, 403)) ∧
      setHarmfulFeaturePost u now c =
        (c, ViewResult.render "feature/not_allowed.html") ∧
      setGoodFeaturePost u now c =
        (c, ViewResult.render "feature/not_allowed.html")) ∧
    (u.socialUids.contains c.uid = false → c.checked = false →
      ∀ hf, (setCheckChangeset hf u now c).2 = 200 ∧
        (setCheckChangeset hf u now c).1.checked = true ∧
        (setCheckChangeset hf u now c).1.harmful = some hf ∧
        (setCheckChangeset hf u now c).1.check_user = some u.id ∧
        (setCheckChangeset hf u now c).1.check_date = some now) := by
  constructor
  · intro hown
    have hmem : c.uid ∈ u.socialUids := by simpa using hown
    refine ⟨fun hf => ?_, ?_, ?_⟩
    · simp [setCheckChangeset, hmem]
    · simp [setHarmfulFeaturePost, hmem]
    · simp [setGoodFeaturePost, hmem]
  · intro hother hunchecked hf
    have hmem : c.uid ∉ u.socialUids := by simpa using hother
    simp [setCheckChangeset, hmem, hunchecked]

/-- Witness for C4: a concrete user owning changeset uid 123123 and a
concrete foreign changeset uid 999999. -/
theorem claim_C4_owner_check_rejected_witness :
    ((⟨1, ["123123"], false⟩ : RequestUser).socialUids.contains
        (Checkable.unchecked "123123").uid = true ∧
      (setCheckChangeset true ⟨1, ["123123"], false⟩ 5
        (Checkable.unchecked "123123")).2 = 403) ∧
    ((⟨1, ["123123"], false⟩ : RequestUser).socialUids.contains
        (Checkable.unchecked "999999").uid = false ∧
      (setCheckChangeset true ⟨1, ["123123"], false⟩ 5
        (Checkable.unchecked "999999")).2 = 200) := by
  have h :=
    claim_C4_owner_check_rejected ⟨1, ["123123"], false⟩ 5
      (Checkable.unchecked "123123") rfl
  have h2 :=
    claim_C4_owner_check_rejected ⟨1, ["123123"], false⟩ 5
      (Checkable.unchecked "999999") rfl
  refine ⟨⟨by decide, ?_⟩, ⟨by decide, ?_⟩⟩
  · have := (h.1 (by decide)).1 true
    simpa using congrArg Prod.snd this
  · exact (h2.2 (by decide) (by decide) true).1

/-- C9: `HttpResponseRedirect` is not among the names bound in
`feature/views.py`, so for every authorized POST (requesting user's uids do
not contain the changeset owner's uid) `SetHarmfulFeature.post` and
`SetGoodFeature.post` first persist all four review fields and then raise a
`NameError` instead of returning a redirect. -/
theorem claim_C9_redirect_name_error (u : RequestUser) (now : Nat)
    (obj : Checkable) (h : u.socialUids.contains obj.uid = false) :
    setHarmfulFeaturePost u now obj =
      ({ obj with
          checked := true,
          harmful := some true,
          check_user := some u.id,
          check_date := some now },
       ViewResult.exn "HttpResponseRedirect") ∧
    setGoodFeaturePost u now obj =
      ({ obj with
          checked := true,
          harmful := some false,
          check_user := some u.id,
          check_date := some now },
       ViewResult.exn "HttpResponseRedirect") := by
  have hname : "HttpResponseRedirect" ∉ featureViewsGlobals := by decide
  have hmem : obj.uid ∉ u.socialUids := by simpa using h
  constructor
  · simp [setHarmfulFeaturePost, hmem, hname]
  · simp [setGoodFeaturePost, hmem, hname]

/-- Witness for C9: a concrete reviewer of a feature in a foreign changeset. -/
theorem claim_C9_redirect_name_error_witness :
    (setHarmfulFeaturePost ⟨1, ["123123"], false⟩ 5
        (Checkable.unchecked "999999")).2 =
      ViewResult.exn "HttpResponseRedirect" := by
  have h :=
    claim_C9_redirect_name_error ⟨1, ["123123"], false⟩ 5
      (Checkable.unchecked "999999") (by decide)
  simpa using congrArg Prod.snd h.1

theorem getOrCreateReason_features (db : DB) (n : String) :
    (getOrCreateReason db n).features = db.features := by
  unfold getOrCreateReason; split <;> rfl

theorem ensureReasons_features (names : List String) (db : DB) :
    (ensureReasons names db).features = db.features := by
  induction names generalizing db with
  | nil => rfl
  | cons n rest ih =>
      show (ensureReasons rest (getOrCreateReason db n)).features = db.features
      rw [ih, getOrCreateReason_features]

theorem getOrCreateChangeset_features (db : DB) (cid : Int) (d : ChangesetRow) :
    ((getOrCreateChangeset db cid d).1).features = db.features := by
  unfold getOrCreateChangeset; split <;> rfl

theorem updateChangesetRow_features (db : DB) (cid : Int)
    (f : ChangesetRow → ChangesetRow) :
    (updateChangesetRow db cid f).features = db.features := rfl

theorem changesetPhase_features (db : DB) (cid : Int) (d : ChangesetRow)
    (ns : List String) (race : Bool) :
    (changesetPhase db cid d ns race).features = db.features := by
  unfold changesetPhase
  split <;>
    simp [apply_ite DB.features, getOrCreateChangeset_features,
      updateChangesetRow_features]

theorem featurePhase_created (db : DB) (oid cid : Int) (fd : FeatureRow)
    (ns : List String) (race : Bool)
    (hfind : db.features.find?
      (fun f => f.osm_id == oid && f.changesetId == cid) = none) :
    ∃ row ∈ (featurePhase db oid cid fd ns race).features,
      row.osm_id = fd.osm_id ∧ row.changesetId = fd.changesetId ∧
      row.url = fd.url := by
  unfold featurePhase getOrCreateFeature
  rw [hfind]
  cases race with
  | true => exact ⟨fd, by simp, rfl, rfl, rfl⟩
  | false =>
      refine ⟨_, List.mem_map_of_mem _
        (List.mem_append_right _ (List.mem_singleton_self fd)), ?_⟩
      split <;> exact ⟨rfl, rfl, rfl⟩

/-- C3: for a well-formed ingestion payload, `create_feature` completes with
status 201 whatever `IntegrityError` races occur while adding the suspicion
reasons to the changeset or to the feature: the errors are swallowed and the
response is still 201 Created. -/
theorem claim_C3_race_tolerated (feature : FeaturePayload)
    (p : FeatureProperties)
    (hprop : feature.properties = some p)
    (hcid : pyTruthyInt p.osmChangeset = true)
    (l : List Suspicion) (hs : p.suspicionsKey = some l)
    (ts : Int) (hts : p.osmTimestamp = some ts)
    (oid : Int) (hoid : p.osmId = some oid)
    (t : String) (htype : p.osmType = some t)
    (v : Int) (hv : p.osmVersion = some v)
    (g : String) (hg : feature.geometry = some (GeoValue.valid g))
    (raceChangesetAdd raceFeatureAdd : Bool) (db : DB) :
    (create_feature feature raceChangesetAdd raceFeatureAdd db).1 =
      ApiResult.response 201 "Feature created." := by
  simp [create_feature, hprop, hcid, hs, hts, hoid, htype, hv, hg]

/-- Witness for C3: the sample payload ingested into the empty database,
with and without both races. -/
theorem claim_C3_race_tolerated_witness :
    samplePayload.properties.isSome = true ∧
    (create_feature samplePayload true true emptyDB).1 =
      ApiResult.response 201 "Feature created." ∧
    (create_feature samplePayload false false emptyDB).1 =
      ApiResult.response 201 "Feature created." :=
  ⟨by decide,
   claim_C3_race_tolerated samplePayload _ rfl rfl _ rfl _ rfl _ rfl _ rfl
     _ rfl _ rfl true true emptyDB,
   claim_C3_race_tolerated samplePayload _ rfl rfl _ rfl _ rfl _ rfl _ rfl
     _ rfl _ rfl false false emptyDB⟩

/-- C10: a payload whose `properties` contain a truthy `osm:changeset` but no
`suspicions` key makes `create_feature` raise an unhandled `KeyError` at
`feature['properties'].pop('suspicions')`, a server error rather than one of
the 400 responses, and the database is left unchanged. -/
theorem claim_C10_pop_key_error (feature : FeaturePayload)
    (p : FeatureProperties)
    (hprop : feature.properties = some p)
    (hcid : pyTruthyInt p.osmChangeset = true)
    (hs : p.suspicionsKey = none)
    (raceChangesetAdd raceFeatureAdd : Bool) (db : DB) :
    create_feature feature raceChangesetAdd raceFeatureAdd db =
      (ApiResult.error (PyExc.keyError "suspicions"), db) := by
  simp [create_feature, hprop, hcid, hs, ensureReasons]

/-- Witness for C10: the sample payload without `suspicions` on the empty
database. -/
theorem claim_C10_pop_key_error_witness :
    samplePayloadNoSuspicions.properties.isSome = true ∧
    create_feature samplePayloadNoSuspicions false false emptyDB =
      (ApiResult.error (PyExc.keyError "suspicions"), emptyDB) :=
  ⟨by decide,
   claim_C10_pop_key_error samplePayloadNoSuspicions _ rfl rfl rfl
     false false emptyDB⟩

/-- C6: the stored url of an ingested feature is its osm type and osm id
joined with a hyphen: the `Feature` row that `create_feature` creates carries
`url = osm_type ++ "-" ++ osm_id`, and the `new_features` entry built by
migration 0051's `filtered_json` derives its url the same way. -/
theorem claim_C6_url_derivation (feature : FeaturePayload)
    (p : FeatureProperties)
    (hprop : feature.properties = some p)
    (cid : Int) (hc : p.osmChangeset = some cid)
    (hcid : pyTruthyInt p.osmChangeset = true)
    (l : List Suspicion) (hs : p.suspicionsKey = some l)
    (ts : Int) (hts : p.osmTimestamp = some ts)
    (oid : Int) (hoid : p.osmId = some oid)
    (t : String) (htype : p.osmType = some t)
    (v : Int) (hv : p.osmVersion = some v)
    (g : String) (hg : feature.geometry = some (GeoValue.valid g))
    (r1 r2 : Bool) (db : DB)
    (hnofeat : db.features.find?
      (fun f => f.osm_id == oid && f.changesetId == cid) = none) :
    (∃ row ∈ (create_feature feature r1 r2 db).2.features,
      row.osm_id = oid ∧ row.changesetId = cid ∧
      row.url = t ++ "-" ++ toString oid) ∧
    ∀ mf : MigrationFeature,
      (filtered_json mf).url = mf.osm_type ++ "-" ++ toString mf.osm_id := by
  have hcid2 : pyTruthyInt (some cid) = true := by rw [hc] at hcid; exact hcid
  constructor
  · simp only [create_feature, hprop, hcid, hs, hts, hoid, htype, hv, hg, hc,
      Option.getD_some]
    have hfind2 :
        (changesetPhase (ensureReasons (if l.isEmpty then []
            else (l.map Suspicion.reason).eraseDups) db) cid
          { id := cid, date := some (ts / 1000), uid := p.osmUid,
            is_suspect := true, reasonNames := [] }
          (if l.isEmpty then [] else (l.map Suspicion.reason).eraseDups)
          r1).features.find?
          (fun f => f.osm_id == oid && f.changesetId == cid) = none := by
      rw [changesetPhase_features, ensureReasons_features]
      exact hnofeat
    have h := featurePhase_created _ oid cid
      { osm_id := oid, changesetId := cid, osm_type := t,
        url := t ++ "-" ++ toString oid, osm_version := v,
        comparator_version := feature.comparatorVersion,
        hasGeometry := true,
        hasOldGeometry :=
          match p.oldVersion with
          | some (GeoValue.valid _) => true
          | _ => false,
        reasonNames := [] }
      (if l.isEmpty then [] else (l.map Suspicion.reason).eraseDups)
      r2 hfind2
    simpa [hcid2] using h
  · intro mf
    rfl

theorem addFeature_urls_of_dup (nf : List NewFeature) (f : NewFeature)
    (hdup : nf.any (fun e => e.url == f.url) = true) :
    (addFeatureToNewFeatures nf f).map NewFeature.url =
      nf.map NewFeature.url := by
  simp only [addFeatureToNewFeatures, hdup, if_true, List.map_map]
  apply List.map_congr_left
  intro e _
  by_cases he : e.url = f.url <;> simp [he]

theorem addFeature_preserves_unique (nf : List NewFeature) (f : NewFeature)
    (h : urlsUnique nf) : urlsUnique (addFeatureToNewFeatures nf f) := by
  cases hdup : nf.any (fun e => e.url == f.url) with
  | true =>
      unfold urlsUnique
      rw [addFeature_urls_of_dup nf f hdup]
      exact h
  | false =>
      have hnot : ∀ e ∈ nf, ¬ e.url = f.url := by
        simpa using hdup
      unfold urlsUnique addFeatureToNewFeatures
      rw [if_neg (by simp [hdup])]
      simp only [List.map_append, List.map_cons, List.map_nil]
      rw [List.nodup_append]
      refine ⟨h, List.nodup_singleton _, ?_⟩
      intro x hx
      simp only [List.mem_map] at hx
      obtain ⟨e, he, rfl⟩ := hx
      simp only [List.mem_singleton]
      exact fun hx2 => hnot e he hx2

/-- C2: `new_features` entries stay unique by derived url.  Ingesting a
feature whose url already appears does not append a second entry (the list of
urls is unchanged, hence also the length) but merges the incoming reason ids
into the existing entry; consequently after any sequence of ingestions
starting from a url-unique list (the empty one included) no two entries share
a url. -/
theorem claim_C2_new_features_unique :
    (∀ (init : List NewFeature) (fs : List NewFeature), urlsUnique init →
      urlsUnique (fs.foldl addFeatureToNewFeatures init)) ∧
    (∀ (nf : List NewFeature) (f : NewFeature),
      nf.any (fun e => e.url == f.url) = true →
      (addFeatureToNewFeatures nf f).map NewFeature.url =
        nf.map NewFeature.url ∧
      ∀ e ∈ nf, e.url = f.url →
        ∃ e2 ∈ addFeatureToNewFeatures nf f, e2.url = f.url ∧
          (∀ r ∈ e.reasons, r ∈ e2.reasons) ∧
          ∀ r ∈ f.reasons, r ∈ e2.reasons) := by
  constructor
  · intro init fs
    induction fs generalizing init with
    | nil => exact fun h => h
    | cons f rest ih =>
        intro h
        exact ih (addFeatureToNewFeatures init f)
          (addFeature_preserves_unique init f h)
  · intro nf f hdup
    refine ⟨addFeature_urls_of_dup nf f hdup, ?_⟩
    intro e he heurl
    refine ⟨{ e with
        reasons := e.reasons ++ f.reasons.filter (fun r => !e.reasons.contains r) },
      ?_, heurl, fun r hr => List.mem_append_left _ hr, ?_⟩
    · unfold addFeatureToNewFeatures
      rw [if_pos (by simp [hdup])]
      have := List.mem_map_of_mem (fun e =>
        if e.url == f.url then
          { e with reasons := e.reasons ++ f.reasons.filter (fun r => !e.reasons.contains r) }
        else e) he
      simpa [heurl] using this
    · intro r hr
      by_cases hre : r ∈ e.reasons
      · exact List.mem_append_left _ hre
      · refine List.mem_append_right _ ?_
        simp only [List.mem_filter, Bool.not_eq_true]
        exact ⟨hr, by simpa using hre⟩

/-- Witness for C2: ingesting the same feature twice yields one entry and
both reason ids, as in `test_add_same_feature_twice`. -/
theorem claim_C2_new_features_unique_witness :
    urlsUnique ([sampleEntry, sampleEntryAgain].foldl addFeatureToNewFeatures []) ∧
    [sampleEntry, sampleEntryAgain].foldl addFeatureToNewFeatures [] =
      [{ osm_id := 87765444, url := "node-87765444", version := 44,
         reasons := [1, 2], name := none, note := none }] :=
  ⟨claim_C2_new_features_unique.1 [] [sampleEntry, sampleEntryAgain]
    (by simp [urlsUnique]),
   by decide⟩

/-- Witness for C6: the sample payload creates the feature row with url
`node-877656232`, as in the test suite. -/
theorem claim_C6_url_derivation_witness :
    (∃ row ∈ (create_feature samplePayload false false emptyDB).2.features,
      row.osm_id = 877656232 ∧ row.changesetId = 1234 ∧
      row.url = "node" ++ "-" ++ toString (877656232 : Int)) ∧
    (filtered_json
      { osm_id := 877656232, osm_type := "node", osm_version := 54,
        reasonIds := [], geojsonName := none }).url = "node-877656232" := by
  have h := claim_C6_url_derivation samplePayload _ rfl 1234 rfl rfl _ rfl
    _ rfl _ rfl _ rfl _ rfl _ rfl false false emptyDB (by decide)
  exact ⟨h.1, by decide⟩

/-- C7: hidden reasons and tags are restricted to staff.  A label with
`is_visible = false` appears in the serialized reasons/tags of a response if
and only if the requesting user is staff; and a non-staff response is
unchanged when the hidden labels are dropped from the database, so it carries
no information about them. -/
theorem claim_C7_hidden_labels_staff_only :
    (∀ (is_staff : Bool) (labels : List Label) (r : Label),
      r ∈ labels → r.is_visible = false →
      (r ∈ serializeLabels is_staff labels ↔ is_staff = true)) ∧
    (∀ labels : List Label,
      serializeLabels false (labels.filter Label.is_visible) =
        serializeLabels false labels) := by
  constructor
  · intro staff labels r hmem hvis
    cases staff with
    | true => simp [serializeLabels, hmem]
    | false => simp [serializeLabels, List.mem_filter, hvis]
  · intro labels
    simp [serializeLabels, List.filter_filter]

/-- Witness for C7: the hidden label of the tests is shown to a staff user
and not to a normal user. -/
theorem claim_C7_hidden_labels_staff_only_witness :
    (sampleHiddenLabel ∈ serializeLabels true [sampleHiddenLabel] ↔
      true = true) ∧
    (sampleHiddenLabel ∈ serializeLabels false [sampleHiddenLabel] ↔
      false = true) :=
  ⟨claim_C7_hidden_labels_staff_only.1 true [sampleHiddenLabel]
      sampleHiddenLabel (by decide) rfl,
   claim_C7_hidden_labels_staff_only.1 false [sampleHiddenLabel]
      sampleHiddenLabel (by decide) rfl⟩

/-- C8: with `hide_whitelist` enabled, an authenticated user's changeset list
contains exactly the changesets whose author is not on that user's whitelist
(whitelisted authors are all excluded, no other changeset is dropped), while
an unauthenticated request has no whitelist and the parameter excludes
nothing. -/
theorem claim_C8_hide_whitelist :
    (∀ (wl : List String) (cs : List ChangesetListItem)
        (c : ChangesetListItem),
      c ∈ hideWhitelistFilter (some wl) true cs → c.userName ∉ wl) ∧
    (∀ (wl : List String) (cs : List ChangesetListItem)
        (c : ChangesetListItem),
      c ∈ cs → c.userName ∉ wl → c ∈ hideWhitelistFilter (some wl) true cs) ∧
    (∀ (hide : Bool) (cs : List ChangesetListItem),
      hideWhitelistFilter none hide cs = cs) := by
  refine ⟨?_, ?_, ?_⟩
  · intro wl cs c hmem
    simp only [hideWhitelistFilter, if_true, List.mem_filter,
      Bool.not_eq_true] at hmem
    simpa using hmem.2
  · intro wl cs c hmem hnot
    simp only [hideWhitelistFilter, if_true, List.mem_filter]
    exact ⟨hmem, by simpa using hnot⟩
  · intro hide cs
    rfl

/-- Witness for C8: with the whitelist of the tests, a changeset by the
whitelisted author is excluded and one by another author is kept. -/
theorem claim_C8_hide_whitelist_witness :
    ((⟨2, "other"⟩ : ChangesetListItem) ∈
      hideWhitelistFilter (some ["test"]) true [⟨1, "test"⟩, ⟨2, "other"⟩]) ∧
    hideWhitelistFilter none true [⟨1, "test"⟩, ⟨2, "other"⟩] =
      [⟨1, "test"⟩, ⟨2, "other"⟩] :=
  ⟨claim_C8_hide_whitelist.2.1 ["test"] [⟨1, "test"⟩, ⟨2, "other"⟩]
      ⟨2, "other"⟩ (by decide) (by decide),
   claim_C8_hide_whitelist.2.2 true [⟨1, "test"⟩, ⟨2, "other"⟩]⟩

theorem setCheckChangeset_code (hf : Bool) (u : RequestUser) (now : Nat)
    (c : Checkable) :
    (setCheckChangeset hf u now c).2 = 403 ∨
      (setCheckChangeset hf u now c).2 = 200 := by
  unfold setCheckChangeset
  split
  · exact Or.inl rfl
  · split
    · exact Or.inl rfl
    · exact Or.inr rfl

theorem checkRequestStep_denied (u : RequestUser) (st : ReviewState)
    (r : CheckRequest) (h : throttleAllow u r.time st.hist = false) :
    checkRequestStep u st r = (st, 429) := by
  unfold checkRequestStep
  rw [h]
  simp

theorem checkRequestStep_allowed (u : RequestUser) (st : ReviewState)
    (r : CheckRequest) (h : throttleAllow u r.time st.hist = true) :
    (checkRequestStep u st r).1.hist = r.time :: st.hist ∧
      (checkRequestStep u st r).2 ≠ 429 := by
  unfold checkRequestStep
  rw [h]
  simp only [Bool.true_eq_false, if_false]
  split
  · exact ⟨rfl, by simp⟩
  · rename_i c heq
    refine ⟨rfl, ?_⟩
    rcases setCheckChangeset_code r.harmfulFlag u r.time c with h1 | h1 <;>
      simp [h1]

theorem throttleAllow_window (u : RequestUser) (t0 now : Nat)
    (hist : List Nat) (hstaff : u.is_staff = false)
    (hhist : ∀ t ∈ hist, t0 ≤ t) (hnow : now < t0 + 60) :
    throttleAllow u now hist = decide (hist.length < 3) := by
  have hfilter : hist.filter (fun t => now < t + 60) = hist := by
    apply List.filter_eq_self.mpr
    intro t ht
    have h1 := hhist t ht
    simp only [decide_eq_true_eq]
    omega
  unfold throttleAllow
  rw [hstaff, Bool.false_or, hfilter]

theorem processChecks_nonstaff_bound (u : RequestUser) (t0 : Nat)
    (hstaff : u.is_staff = false) (reqs : List CheckRequest) :
    ∀ st : ReviewState, (∀ t ∈ st.hist, t0 ≤ t) →
      (∀ r ∈ reqs, t0 ≤ r.time ∧ r.time < t0 + 60) →
      ((processChecks u st reqs).2.filter (fun c => c != 429)).length
        + min 3 st.hist.length ≤ 3 := by
  induction reqs with
  | nil =>
      intro st _ _
      simp only [processChecks, List.filter_nil, List.length_nil, Nat.zero_add]
      exact Nat.min_le_left 3 st.hist.length
  | cons r rest ih =>
      intro st hhist hreqs
      have hr := hreqs r (List.mem_cons_self r rest)
      have hrest : ∀ q ∈ rest, t0 ≤ q.time ∧ q.time < t0 + 60 :=
        fun q hq => hreqs q (List.mem_cons_of_mem r hq)
      simp only [processChecks]
      cases hallow : throttleAllow u r.time st.hist with
      | false =>
          rw [checkRequestStep_denied u st r hallow]
          have h := ih st hhist hrest
          simpa using h
      | true =>
          have hs := checkRequestStep_allowed u st r hallow
          have hlen : st.hist.length < 3 := by
            rw [throttleAllow_window u t0 r.time st.hist hstaff hhist hr.2]
              at hallow
            exact of_decide_eq_true hallow
          have hhist2 : ∀ t ∈ (checkRequestStep u st r).1.hist, t0 ≤ t := by
            rw [hs.1]
            intro t ht
            rcases List.mem_cons.mp ht with h1 | h1
            · rw [h1]; exact hr.1
            · exact hhist t h1
          have h := ih (checkRequestStep u st r).1 hhist2 hrest
          rw [hs.1] at h
          have hkeep : (((checkRequestStep u st r).2 : Nat) != 429) = true := by
            simpa using hs.2
          rw [List.filter_cons]
          simp only [hkeep, if_true, List.length_cons]
          have hm1 : min 3 (r.time :: st.hist).length = st.hist.length + 1 := by
            simp only [List.length_cons]
            omega
          have hm2 : min 3 st.hist.length = st.hist.length := by omega
          omega

theorem processChecks_staff_all_allowed (u : RequestUser)
    (hstaff : u.is_staff = true) (reqs : List CheckRequest) :
    ∀ st : ReviewState, 429 ∉ (processChecks u st reqs).2 := by
  induction reqs with
  | nil => intro st; simp [processChecks]
  | cons r rest ih =>
      intro st
      have hallow : throttleAllow u r.time st.hist = true := by
        unfold throttleAllow
        rw [hstaff, Bool.true_or]
      have hs := checkRequestStep_allowed u st r hallow
      simp only [processChecks, List.mem_cons]
      rintro (h | h)
      · exact hs.2 h.symm
      · exact ih _ h

theorem count200_le_non429 (codes : List Nat) :
    codes.count 200 ≤ (codes.filter (fun c => c != 429)).length := by
  rw [← List.countP_eq_length_filter, List.count_eq_countP]
  apply List.countP_mono_left
  intro c _ h
  simp only [beq_iff_eq] at h
  simp [h]

/-- C5: checking changesets is throttled per user.  Within any one-minute
window starting from a fresh throttle history, a non-staff user's set-harmful
and set-good requests, counted together, succeed at most 3 times; a request
refused by the throttle answers 429 and changes neither the changesets nor
the history; and a staff user is never answered 429. -/
theorem claim_C5_check_throttling (u : RequestUser) (t0 : Nat) :
    (∀ (cs : List Checkable) (reqs : List CheckRequest),
      u.is_staff = false →
      (∀ r ∈ reqs, t0 ≤ r.time ∧ r.time < t0 + 60) →
      (processChecks u ⟨cs, []⟩ reqs).2.count 200 ≤ 3) ∧
    (∀ (st : ReviewState) (r : CheckRequest),
      throttleAllow u r.time st.hist = false →
      checkRequestStep u st r = (st, 429)) ∧
    (∀ (st : ReviewState) (reqs : List CheckRequest),
      u.is_staff = true → 429 ∉ (processChecks u st reqs).2) := by
  refine ⟨?_, ?_, ?_⟩
  · intro cs reqs hstaff hreqs
    have h := processChecks_nonstaff_bound u t0 hstaff reqs ⟨cs, []⟩
      (by simp) hreqs
    have h2 := count200_le_non429 (processChecks u ⟨cs, []⟩ reqs).2
    simp only [List.length_nil, Nat.min_zero, Nat.add_zero] at h
    omega
  · exact fun st r h => checkRequestStep_denied u st r h
  · exact fun st reqs h => processChecks_staff_all_allowed u h reqs st

/-- Witness for C5: the non-staff reviewer's five requests within one minute
produce exactly three 200 responses followed by 429s, as in the tests. -/
theorem claim_C5_check_throttling_witness :
    (processChecks sampleReviewer ⟨sampleChangesets, []⟩ sampleRequests).2 =
      [200, 200, 200, 429, 429] ∧
    (processChecks sampleReviewer
      ⟨sampleChangesets, []⟩ sampleRequests).2.count 200 ≤ 3 :=
  ⟨by decide,
   (claim_C5_check_throttling sampleReviewer 0).1 sampleChangesets
     sampleRequests rfl (by decide)⟩

end Osmcha
